import Mathlib

/-
Verification of the FastAPI instrumentation middleware in
src/fastapi_app/utils.py: the PrometheusMiddleware and OtelMiddleware
classes, their get_path route resolvers, their dispatch methods, and the
module-level metric instruments.

Modelling conventions.  A dispatch call is embedded as a pure function
from the request, the outcome of the downstream handler (call_next), and
the two monotonic-clock readings (time.perf_counter before and after the
downstream call) to the ordered list of observable side effects
(TraceEvent) it performs, together with the outcome it returns or
re-raises.  Python BaseException values are modelled by their type name
and message; an asyncio cancellation is a BaseException and is therefore
covered by the Outcome.exn case, exactly as the except BaseException
clause of the source catches it.
-/

/-- The starlette.routing.Match enum: NONE, PARTIAL (path matches but the
method does not), FULL (method and path both match).  PARTIAL is spelled
part here. -/
inductive Match where
  | none : Match
  | part : Match
  | full : Match
deriving DecidableEq, Repr

/-- The per-request view of one entry of request.app.routes: the route
template string route.path, and the value of route.matches(request.scope)
for the request at hand. -/
structure RouteEntry where
  path : String
  matchResult : Match
deriving DecidableEq, Repr

/-- The parts of a starlette Request that the middleware reads: the HTTP
method, the raw request.url.path, the snapshot of request.app.routes
evaluated against this request, and the request headers (read only by the
trace-context extraction of the instrumentation layer). -/
structure Request where
  method : String
  urlPath : String
  routes : List RouteEntry
  headers : List (String × String)
deriving DecidableEq, Repr

/-- A starlette Response as the middleware sees it: the status code it
reads, plus an opaque body witnessing that the response object is passed
through unchanged. -/
structure Response where
  status_code : Nat
  body : String
deriving DecidableEq, Repr

/-- The outcome of awaiting call_next(request): either a normal Response,
or a raised BaseException carrying its type name and message. -/
inductive Outcome where
  | ok : Response → Outcome
  | exn : (exception_type : String) → (message : String) → Outcome
deriving DecidableEq, Repr

/-- starlette.status.HTTP_500_INTERNAL_SERVER_ERROR. -/
def HTTP_500_INTERNAL_SERVER_ERROR : Nat := 500

/-- The label/attribute set {method, path, app_name} attached to every
metric emission of one request. -/
structure Attrs where
  method : String
  path : String
  app_name : String
deriving DecidableEq, Repr

/-- Span kinds of the tracing interface; the middleware layer only ever
starts SERVER spans. -/
inductive SpanKind where
  | server : SpanKind
  | internalKind : SpanKind
deriving DecidableEq, Repr

/-- One observable side effect of the instrumentation layer, in program
order.  Instrument creations come from the constructors, metric updates
and the downstream call from dispatch, span events from the tracing
bridge.  Gauge.inc()/Gauge.dec() of prometheus_client and
up_down_counter.add(1)/add(-1) of opentelemetry are both rendered as
addInProgress with an explicit integer delta. -/
inductive TraceEvent where
  | createCounter : (name description : String) → TraceEvent
  | createHistogram : (name unit description : String) → TraceEvent
  | createUpDownCounter : (name description : String) → TraceEvent
  | incInfo : (app_name : String) → TraceEvent
  | addInProgress : Attrs → Int → TraceEvent
  | incRequests : Attrs → TraceEvent
  | recordDuration : Attrs → (seconds : Rat) → (exemplar : Option (String × String)) → TraceEvent
  | incResponses : Attrs → (status_code : Nat) → TraceEvent
  | incExceptions : Attrs → (exception_type : String) → TraceEvent
  | callDownstream : TraceEvent
  | spanStart : (name : String) → SpanKind → Attrs → (parent : Option String) → TraceEvent
  | spanEnd : TraceEvent
deriving DecidableEq, Repr

/-- The route-scanning loop of PrometheusMiddleware.get_path: walk the
route table in order, return (route.path, True) at the first FULL match,
and (request.url.path, False) when the loop falls through. -/
def PrometheusMiddleware.getPathLoop (urlPath : String) : List RouteEntry → String × Bool
  | [] => (urlPath, false)
  | r :: rest =>
      if r.matchResult = Match.full then (r.path, true)
      else PrometheusMiddleware.getPathLoop urlPath rest

/-- PrometheusMiddleware.get_path (src/fastapi_app/utils.py lines 113-120). -/
def PrometheusMiddleware.get_path (request : Request) : String × Bool :=
  PrometheusMiddleware.getPathLoop request.urlPath request.routes

/-- The identical route-scanning loop of OtelMiddleware.get_path,
translated separately from its own occurrence in the source. -/
def OtelMiddleware.getPathLoop (urlPath : String) : List RouteEntry → String × Bool
  | [] => (urlPath, false)
  | r :: rest =>
      if r.matchResult = Match.full then (r.path, true)
      else OtelMiddleware.getPathLoop urlPath rest

/-- OtelMiddleware.get_path (src/fastapi_app/utils.py lines 204-211). -/
def OtelMiddleware.get_path (request : Request) : String × Bool :=
  OtelMiddleware.getPathLoop request.urlPath request.routes

/-- The route resolver as the spec words it: the first route of the table
whose matcher reports a FULL match yields (template, handled=true);
otherwise (raw request path, handled=false). -/
def routeResolverSpec (request : Request) : String × Bool :=
  match request.routes.find? (fun r => r.matchResult = Match.full) with
  | some r => (r.path, true)
  | Option.none => (request.urlPath, false)

/-- PrometheusMiddleware.dispatch (src/fastapi_app/utils.py lines 65-111),
as the list of side effects it performs in order plus the outcome it
returns or re-raises.  Inputs beyond the request: app_name is
self.app_name, downstream is the behaviour of call_next, before and after
are the two time.perf_counter() readings, and trace_id is the formatted
trace id of the current span read for the histogram exemplar. -/
def PrometheusMiddleware.dispatch (app_name : String) (request : Request)
    (downstream : Outcome) (before after : Rat) (trace_id : String) :
    List TraceEvent × Outcome :=
  let method := request.method
  let pathHandled := PrometheusMiddleware.get_path request
  let path := pathHandled.1
  let is_handled_path := pathHandled.2
  if is_handled_path = false then
    ([TraceEvent.callDownstream], downstream)
  else
    let attrs : Attrs := ⟨method, path, app_name⟩
    match downstream with
    | Outcome.ok response =>
        ([TraceEvent.addInProgress attrs 1,
          TraceEvent.incRequests attrs,
          TraceEvent.callDownstream,
          TraceEvent.recordDuration attrs (after - before) (some ("TraceID", trace_id)),
          TraceEvent.incResponses attrs response.status_code,
          TraceEvent.addInProgress attrs (-1)],
         Outcome.ok response)
    | Outcome.exn ty msg =>
        ([TraceEvent.addInProgress attrs 1,
          TraceEvent.incRequests attrs,
          TraceEvent.callDownstream,
          TraceEvent.incExceptions attrs ty,
          TraceEvent.incResponses attrs HTTP_500_INTERNAL_SERVER_ERROR,
          TraceEvent.addInProgress attrs (-1)],
         Outcome.exn ty msg)

/-- OtelMiddleware.dispatch (src/fastapi_app/utils.py lines 160-202):
same structure, with the attributes dict computed once up front and the
histogram recorded without an explicit exemplar. -/
def OtelMiddleware.dispatch (app_name : String) (request : Request)
    (downstream : Outcome) (before after : Rat) :
    List TraceEvent × Outcome :=
  let method := request.method
  let pathHandled := OtelMiddleware.get_path request
  let path := pathHandled.1
  let is_handled_path := pathHandled.2
  if is_handled_path = false then
    ([TraceEvent.callDownstream], downstream)
  else
    let attributes : Attrs := ⟨method, path, app_name⟩
    match downstream with
    | Outcome.ok response =>
        ([TraceEvent.addInProgress attributes 1,
          TraceEvent.incRequests attributes,
          TraceEvent.callDownstream,
          TraceEvent.recordDuration attributes (after - before) Option.none,
          TraceEvent.incResponses attributes response.status_code,
          TraceEvent.addInProgress attributes (-1)],
         Outcome.ok response)
    | Outcome.exn ty msg =>
        ([TraceEvent.addInProgress attributes 1,
          TraceEvent.incRequests attributes,
          TraceEvent.callDownstream,
          TraceEvent.incExceptions attributes ty,
          TraceEvent.incResponses attributes HTTP_500_INTERNAL_SERVER_ERROR,
          TraceEvent.addInProgress attributes (-1)],
         Outcome.exn ty msg)

/-- PrometheusMiddleware.__init__ (lines 60-63): beyond storing app_name,
its sole side effect is INFO.labels(app_name=self.app_name).inc(). -/
def PrometheusMiddleware.init (app_name : String) : List TraceEvent :=
  [TraceEvent.incInfo app_name]

/-- OtelMiddleware.__init__ (lines 130-158): the five instrument
creations performed on the meter, in order, with their literal names,
units and descriptions. -/
def OtelMiddleware.init (_app_name : String) : List TraceEvent :=
  [TraceEvent.createCounter "fastapi_requests_total"
     "Total count of requests by method and path.",
   TraceEvent.createCounter "fastapi_responses_total"
     "Total count of responses by method, path and status codes.",
   TraceEvent.createHistogram "fastapi_requests_duration_seconds" "s"
     "Histogram of requests processing time by path (in seconds)",
   TraceEvent.createCounter "fastapi_exceptions_total"
     "Total count of exceptions raised by path and exception type",
   TraceEvent.createUpDownCounter "fastapi_requests_in_progress"
     "Gauge of requests by method and path currently being processed"]

/-- One module-level prometheus_client instrument declaration:
constructor name, metric name, documentation, label names. -/
structure PromInstrument where
  kind : String
  name : String
  documentation : String
  labelnames : List String
deriving DecidableEq, Repr

/-- The module-level INFO gauge (line 31). -/
def INFO : PromInstrument :=
  ⟨"Gauge", "fastapi_app_info", "FastAPI application information.", ["app_name"]⟩

/-- The module-level REQUESTS counter (lines 32-36). -/
def REQUESTS : PromInstrument :=
  ⟨"Counter", "fastapi_requests_total", "Total count of requests by method and path.",
   ["method", "path", "app_name"]⟩

/-- The module-level RESPONSES counter (lines 37-41). -/
def RESPONSES : PromInstrument :=
  ⟨"Counter", "fastapi_responses_total",
   "Total count of responses by method, path and status codes.",
   ["method", "path", "status_code", "app_name"]⟩

/-- The module-level REQUESTS_PROCESSING_TIME histogram (lines 42-46). -/
def REQUESTS_PROCESSING_TIME : PromInstrument :=
  ⟨"Histogram", "fastapi_requests_duration_seconds",
   "Histogram of requests processing time by path (in seconds)",
   ["method", "path", "app_name"]⟩

/-- The module-level EXCEPTIONS counter (lines 47-51). -/
def EXCEPTIONS : PromInstrument :=
  ⟨"Counter", "fastapi_exceptions_total",
   "Total count of exceptions raised by path and exception type",
   ["method", "path", "exception_type", "app_name"]⟩

/-- The module-level REQUESTS_IN_PROGRESS gauge (lines 52-56). -/
def REQUESTS_IN_PROGRESS : PromInstrument :=
  ⟨"Gauge", "fastapi_requests_in_progress",
   "Gauge of requests by method and path currently being processed",
   ["method", "path", "app_name"]⟩

/-- The instruments created at module load, in source order. -/
def promModuleInstruments : List PromInstrument :=
  [INFO, REQUESTS, RESPONSES, REQUESTS_PROCESSING_TIME, EXCEPTIONS, REQUESTS_IN_PROGRESS]

/-- Modelled from the spec: the trace-context extraction of the Span
Context Bridge (spec section 4.2) is performed by the propagation layer
of the opentelemetry library, which is not code under src/.  Following
the spec wording, the carrier headers yield a parent context when a
propagation header is present and none (a fresh trace) otherwise. -/
def extractContext (headers : List (String × String)) : Option String :=
  (headers.find? (fun h => h.1 = "traceparent")).map (fun h => h.2)

/-- Modelled from the spec: span creation is not code under src/ —
setting_otlp (utils.py lines 240-241) installs OtelMiddleware and then
delegates all span handling to FastAPIInstrumentor.instrument_app, an
external library.  Following spec sections 4.2 and 4.4: for a matched
request a SERVER-kind span named "{method} {routeIdentifier}" with
attributes {method, route, service name}, parented to the extracted (or
fresh) context, is started on entering IN_FLIGHT and ended
unconditionally when the request completes, on both exit paths. -/
def otlpPipelineDispatch (app_name : String) (request : Request)
    (downstream : Outcome) (before after : Rat) :
    List TraceEvent × Outcome :=
  let pathHandled := OtelMiddleware.get_path request
  if pathHandled.2 = false then
    ([TraceEvent.callDownstream], downstream)
  else
    let inner := OtelMiddleware.dispatch app_name request downstream before after
    (TraceEvent.spanStart (request.method ++ " " ++ pathHandled.1) SpanKind.server
        ⟨request.method, pathHandled.1, app_name⟩ (extractContext request.headers)
      :: inner.1 ++ [TraceEvent.spanEnd],
     inner.2)

/-- Does the event increment the in-flight gauge by one. -/
def isInFlightInc : TraceEvent → Bool
  | TraceEvent.addInProgress _ d => decide (d = 1)
  | _ => false

/-- Does the event decrement the in-flight gauge by one. -/
def isInFlightDec : TraceEvent → Bool
  | TraceEvent.addInProgress _ d => decide (d = -1)
  | _ => false

/-- Is the event the invocation of the downstream handler. -/
def isCallDownstream : TraceEvent → Bool
  | TraceEvent.callDownstream => true
  | _ => false

/-- Net effect of a trace on the in-flight gauge. -/
def inFlightNet (es : List TraceEvent) : Int :=
  es.foldl
    (fun acc e =>
      match e with
      | TraceEvent.addInProgress _ d => acc + d
      | _ => acc)
    0

/-- Is the event a duration-histogram observation. -/
def isDurationEvent : TraceEvent → Bool
  | TraceEvent.recordDuration _ _ _ => true
  | _ => false

/-- Is the event a duration observation of exactly s seconds. -/
def isDurationWith (s : Rat) : TraceEvent → Bool
  | TraceEvent.recordDuration _ s0 _ => decide (s0 = s)
  | _ => false

/-- Is the event a response-counter increment. -/
def isResponseEvent : TraceEvent → Bool
  | TraceEvent.incResponses _ _ => true
  | _ => false

/-- Is the event a response-counter increment carrying the given status. -/
def isResponseWith (status : Nat) : TraceEvent → Bool
  | TraceEvent.incResponses _ s => decide (s = status)
  | _ => false

/-- Is the event an exception-counter increment. -/
def isExceptionEvent : TraceEvent → Bool
  | TraceEvent.incExceptions _ _ => true
  | _ => false

/-- Is the event an exception-counter increment tagged with the given
exception type name. -/
def isExceptionWith (ty : String) : TraceEvent → Bool
  | TraceEvent.incExceptions _ t => decide (t = ty)
  | _ => false

/-- Is the event an update of any metric instrument. -/
def isMetricEvent : TraceEvent → Bool
  | TraceEvent.incInfo _ => true
  | TraceEvent.addInProgress _ _ => true
  | TraceEvent.incRequests _ => true
  | TraceEvent.recordDuration _ _ _ => true
  | TraceEvent.incResponses _ _ => true
  | TraceEvent.incExceptions _ _ => true
  | _ => false

/-- Is the event a span start or end. -/
def isSpanEvent : TraceEvent → Bool
  | TraceEvent.spanStart _ _ _ _ => true
  | TraceEvent.spanEnd => true
  | _ => false

/-- Is the event a span start. -/
def isSpanStartEvent : TraceEvent → Bool
  | TraceEvent.spanStart _ _ _ _ => true
  | _ => false

/-- Is the event a span start with exactly the given name, kind,
attributes and parent. -/
def isSpanStartWith (name : String) (kind : SpanKind) (a : Attrs)
    (parent : Option String) : TraceEvent → Bool
  | TraceEvent.spanStart n k b p =>
      decide (n = name) && decide (k = kind) && decide (b = a) && decide (p = parent)
  | _ => false

/-- Is the event a span end. -/
def isSpanEndEvent : TraceEvent → Bool
  | TraceEvent.spanEnd => true
  | _ => false

/-- Is the event the creation of an instrument. -/
def isCreationEvent : TraceEvent → Bool
  | TraceEvent.createCounter _ _ => true
  | TraceEvent.createHistogram _ _ _ => true
  | TraceEvent.createUpDownCounter _ _ => true
  | _ => false

/-- The name of the instrument an event creates, if any. -/
def creationName : TraceEvent → Option String
  | TraceEvent.createCounter n _ => some n
  | TraceEvent.createHistogram n _ _ => some n
  | TraceEvent.createUpDownCounter n _ => some n
  | _ => Option.none

/-- Is the event an increment of the fastapi_app_info gauge. -/
def isIncInfoEvent : TraceEvent → Bool
  | TraceEvent.incInfo _ => true
  | _ => false

/-- Is the event an increment of the fastapi_app_info gauge labelled with
the given app name. -/
def isIncInfoWith (a : String) : TraceEvent → Bool
  | TraceEvent.incInfo b => decide (b = a)
  | _ => false

/-- The metric attributes carried by an event, if any. -/
def attrsOf : TraceEvent → Option Attrs
  | TraceEvent.addInProgress a _ => some a
  | TraceEvent.incRequests a => some a
  | TraceEvent.recordDuration a _ _ => some a
  | TraceEvent.incResponses a _ => some a
  | TraceEvent.incExceptions a _ => some a
  | _ => Option.none

/-- Every metric emission of the trace carries exactly the attribute set a. -/
def attrsConsistent (es : List TraceEvent) (a : Attrs) : Bool :=
  es.all
    (fun e =>
      match attrsOf e with
      | some b => decide (b = a)
      | Option.none => true)

/-- Compound property for claim C1: the trace balances the in-flight
gauge — net effect zero, exactly one increment, exactly one decrement,
the increment strictly before the downstream call and the decrement
strictly after it. -/
def inFlightBalanced (es : List TraceEvent) : Prop :=
  inFlightNet es = 0 ∧
  es.countP isInFlightInc = 1 ∧
  es.countP isInFlightDec = 1 ∧
  es.findIdx isInFlightInc < es.findIdx isCallDownstream ∧
  es.findIdx isCallDownstream < es.findIdx isInFlightDec

/-- Compound property for claim C2: exactly one exception-counter
increment, tagged with ty; exactly one response-counter increment,
carrying status 500; no duration observation. -/
def exceptionAccounted (es : List TraceEvent) (ty : String) : Prop :=
  es.countP (fun e => isExceptionWith ty e) = 1 ∧
  es.countP isExceptionEvent = 1 ∧
  es.countP (fun e => isResponseWith HTTP_500_INTERNAL_SERVER_ERROR e) = 1 ∧
  es.countP isResponseEvent = 1 ∧
  es.countP isDurationEvent = 0

/-- Compound property for claim C3: exactly one duration observation,
measuring exactly elapsed seconds, and exactly one response-counter
increment carrying the given status code. -/
def successAccounted (es : List TraceEvent) (elapsed : Rat) (status : Nat) : Prop :=
  es.countP isDurationEvent = 1 ∧
  es.countP (fun e => isDurationWith elapsed e) = 1 ∧
  es.countP isResponseEvent = 1 ∧
  es.countP (fun e => isResponseWith status e) = 1

/-- Compound property for claim C4: the dispatch result touches no
metric instrument, emits no span event, and returns the downstream
outcome unchanged. -/
def passThrough (r : List TraceEvent × Outcome) (downstream : Outcome) : Prop :=
  r.1.countP isMetricEvent = 0 ∧
  r.1.countP isSpanEvent = 0 ∧
  r.2 = downstream

/-- Compound property for claim C6: the trace holds exactly one span
start, with precisely the given name, SERVER kind, attributes and parent,
before the downstream call, and exactly one span end after it. -/
def spanScoped (es : List TraceEvent) (name : String) (a : Attrs)
    (parent : Option String) : Prop :=
  es.countP (fun e => isSpanStartWith name SpanKind.server a parent e) = 1 ∧
  es.countP isSpanStartEvent = 1 ∧
  es.countP isSpanEndEvent = 1 ∧
  es.findIdx isSpanStartEvent < es.findIdx isCallDownstream ∧
  es.findIdx isCallDownstream < es.findIdx isSpanEndEvent

/-- The two textually duplicated route-scanning loops are the same
function. -/
theorem getPathLoop_eq (urlPath : String) (routes : List RouteEntry) :
    OtelMiddleware.getPathLoop urlPath routes =
      PrometheusMiddleware.getPathLoop urlPath routes := by
  induction routes with
  | nil => rfl
  | cons r rest ih =>
      simp only [OtelMiddleware.getPathLoop, PrometheusMiddleware.getPathLoop, ih]

/-- The two get_path resolvers agree on every request. -/
theorem get_path_agree (request : Request) :
    OtelMiddleware.get_path request = PrometheusMiddleware.get_path request := by
  unfold OtelMiddleware.get_path PrometheusMiddleware.get_path
  exact getPathLoop_eq request.urlPath request.routes

/-- The scanning loop returns the first FULL match of the table and
falls back to the raw path. -/
theorem getPathLoop_spec (urlPath : String) (routes : List RouteEntry) :
    PrometheusMiddleware.getPathLoop urlPath routes =
      match routes.find? (fun r => r.matchResult = Match.full) with
      | some r => (r.path, true)
      | Option.none => (urlPath, false) := by
  induction routes with
  | nil => rfl
  | cons r rest ih =>
      by_cases h : r.matchResult = Match.full
      · simp [PrometheusMiddleware.getPathLoop, List.find?_cons, h]
      · simp [PrometheusMiddleware.getPathLoop, List.find?_cons, h, ih]

/-- Claim C5: the route resolver is a pure function of the request and
route table that walks the routes in registration order, yields
(template, true) at the first route whose matcher reports a FULL match
(a PARTIAL, method-mismatch match is skipped, never selected), and
yields (raw request path, false) when no route fully matches. -/
theorem route_resolver_first_full_match (request : Request) :
    PrometheusMiddleware.get_path request = routeResolverSpec request := by
  unfold PrometheusMiddleware.get_path routeResolverSpec
  exact getPathLoop_spec request.urlPath request.routes

/-- Claim C9: PrometheusMiddleware.get_path and OtelMiddleware.get_path
are extensionally equal — on every request (hence every route table
snapshot) they return the same (identifier, handled) pair. -/
theorem get_path_variants_agree (request : Request) :
    OtelMiddleware.get_path request = PrometheusMiddleware.get_path request :=
  get_path_agree request

/-- A route table with a PARTIAL (method-mismatch) entry followed by a
FULL match; the concrete request used by the witnesses. -/
def sampleRoutes : List RouteEntry :=
  [⟨"/metrics", Match.part⟩, ⟨"/items", Match.full⟩]

/-- A concrete matched request. -/
def sampleRequest : Request :=
  ⟨"GET", "/items", sampleRoutes,
   [("traceparent", "00-0af7651916cd43dd8448eb211c80319c-b7ad6b7169203331-01")]⟩

/-- A concrete unmatched request: its only route matches the path but not
the method (PARTIAL), which must not count as handled. -/
def missRequest : Request :=
  ⟨"GET", "/unknown", [⟨"/unknown", Match.part⟩], []⟩

/-- A concrete downstream response. -/
def sampleResponse : Response := ⟨200, "ok"⟩

/-- Claim C1: for every request whose route is matched, both dispatch
variants increment the in-flight gauge exactly once before invoking the
downstream handler and decrement it exactly once after it completes, so
the net effect per request is zero — on the normal-return path and on the
path where downstream raises any BaseException (which is how a
cancellation surfaces to the except BaseException clause). -/
theorem dispatch_in_flight_balanced (app_name : String) (request : Request)
    (downstream : Outcome) (before after : Rat) (trace_id : String)
    (h : (PrometheusMiddleware.get_path request).2 = true) :
    inFlightBalanced
      (PrometheusMiddleware.dispatch app_name request downstream before after trace_id).1 ∧
    inFlightBalanced
      (OtelMiddleware.dispatch app_name request downstream before after).1 := by
  cases downstream <;>
    simp [PrometheusMiddleware.dispatch, OtelMiddleware.dispatch, get_path_agree, h,
          inFlightBalanced, inFlightNet, isInFlightInc, isInFlightDec, isCallDownstream,
          List.countP_cons, List.countP_nil, List.findIdx_cons]

/-- Witness for the C1 theorem at a concrete matched request. -/
theorem dispatch_in_flight_balanced_witness :
    inFlightBalanced
      (PrometheusMiddleware.dispatch "fastapi-app" sampleRequest
        (Outcome.exn "CancelledError" "cancelled") 0 1 "0af7651916cd43dd8448eb211c80319c").1 ∧
    inFlightBalanced
      (OtelMiddleware.dispatch "fastapi-app" sampleRequest
        (Outcome.exn "CancelledError" "cancelled") 0 1).1 :=
  dispatch_in_flight_balanced "fastapi-app" sampleRequest
    (Outcome.exn "CancelledError" "cancelled") 0 1 "0af7651916cd43dd8448eb211c80319c"
    (by decide)

/-- Claim C2: for every matched request whose downstream handler raises,
both dispatch variants increment the exception counter exactly once with
the concrete exception type name, increment the response counter exactly
once with status 500, record no duration observation, and re-raise the
original exception unchanged (same type, same message). -/
theorem dispatch_exception_accounting (app_name : String) (request : Request)
    (ty msg : String) (before after : Rat) (trace_id : String)
    (h : (PrometheusMiddleware.get_path request).2 = true) :
    exceptionAccounted
      (PrometheusMiddleware.dispatch app_name request (Outcome.exn ty msg) before after trace_id).1 ty ∧
    (PrometheusMiddleware.dispatch app_name request (Outcome.exn ty msg) before after trace_id).2 =
      Outcome.exn ty msg ∧
    exceptionAccounted
      (OtelMiddleware.dispatch app_name request (Outcome.exn ty msg) before after).1 ty ∧
    (OtelMiddleware.dispatch app_name request (Outcome.exn ty msg) before after).2 =
      Outcome.exn ty msg := by
  simp [PrometheusMiddleware.dispatch, OtelMiddleware.dispatch, get_path_agree, h,
        exceptionAccounted, isExceptionWith, isExceptionEvent, isResponseWith,
        isResponseEvent, isDurationEvent, HTTP_500_INTERNAL_SERVER_ERROR,
        List.countP_cons, List.countP_nil]

/-- Witness for the C2 theorem: a ValueError raised under a matched route. -/
theorem dispatch_exception_accounting_witness :
    exceptionAccounted
      (PrometheusMiddleware.dispatch "fastapi-app" sampleRequest
        (Outcome.exn "ValueError" "boom") 0 1 "0af7651916cd43dd8448eb211c80319c").1 "ValueError" ∧
    (PrometheusMiddleware.dispatch "fastapi-app" sampleRequest
        (Outcome.exn "ValueError" "boom") 0 1 "0af7651916cd43dd8448eb211c80319c").2 =
      Outcome.exn "ValueError" "boom" ∧
    exceptionAccounted
      (OtelMiddleware.dispatch "fastapi-app" sampleRequest
        (Outcome.exn "ValueError" "boom") 0 1).1 "ValueError" ∧
    (OtelMiddleware.dispatch "fastapi-app" sampleRequest
        (Outcome.exn "ValueError" "boom") 0 1).2 =
      Outcome.exn "ValueError" "boom" :=
  dispatch_exception_accounting "fastapi-app" sampleRequest "ValueError" "boom" 0 1
    "0af7651916cd43dd8448eb211c80319c" (by decide)

/-- Claim C3: for every matched request whose downstream handler returns
normally, both dispatch variants record exactly one duration observation,
equal to the monotonic-clock difference after - before (hence nonnegative
under clock monotonicity), and increment the response counter exactly
once with the actual response status code. -/
theorem dispatch_success_accounting (app_name : String) (request : Request)
    (response : Response) (before after : Rat) (trace_id : String)
    (h : (PrometheusMiddleware.get_path request).2 = true)
    (hclock : before ≤ after) :
    0 ≤ after - before ∧
    successAccounted
      (PrometheusMiddleware.dispatch app_name request (Outcome.ok response) before after trace_id).1
      (after - before) response.status_code ∧
    successAccounted
      (OtelMiddleware.dispatch app_name request (Outcome.ok response) before after).1
      (after - before) response.status_code := by
  refine ⟨by simpa using sub_nonneg.mpr hclock, ?_, ?_⟩ <;>
    simp [PrometheusMiddleware.dispatch, OtelMiddleware.dispatch, get_path_agree, h,
          successAccounted, isDurationEvent, isDurationWith, isResponseEvent,
          isResponseWith, List.countP_cons, List.countP_nil]

/-- Witness for the C3 theorem: a 200 response with clock readings 0 and 1. -/
theorem dispatch_success_accounting_witness :
    0 ≤ (1 : Rat) - 0 ∧
    successAccounted
      (PrometheusMiddleware.dispatch "fastapi-app" sampleRequest
        (Outcome.ok sampleResponse) 0 1 "0af7651916cd43dd8448eb211c80319c").1
      ((1 : Rat) - 0) sampleResponse.status_code ∧
    successAccounted
      (OtelMiddleware.dispatch "fastapi-app" sampleRequest
        (Outcome.ok sampleResponse) 0 1).1
      ((1 : Rat) - 0) sampleResponse.status_code :=
  dispatch_success_accounting "fastapi-app" sampleRequest sampleResponse 0 1
    "0af7651916cd43dd8448eb211c80319c" (by decide) (by decide)

/-- Claim C4: for every request whose route is unmatched, each dispatch
variant — and the spec-modelled otlp pipeline — touches no metric
instrument, emits no span event, and forwards the downstream outcome
(response or exception) unchanged. -/
theorem dispatch_unmatched_pass_through (app_name : String) (request : Request)
    (downstream : Outcome) (before after : Rat) (trace_id : String)
    (h : (PrometheusMiddleware.get_path request).2 = false) :
    passThrough
      (PrometheusMiddleware.dispatch app_name request downstream before after trace_id) downstream ∧
    passThrough (OtelMiddleware.dispatch app_name request downstream before after) downstream ∧
    passThrough (otlpPipelineDispatch app_name request downstream before after) downstream := by
  simp [PrometheusMiddleware.dispatch, OtelMiddleware.dispatch, otlpPipelineDispatch,
        get_path_agree, h, passThrough, isMetricEvent, isSpanEvent,
        List.countP_cons, List.countP_nil]

/-- Witness for the C4 theorem: a request whose only route match is
PARTIAL, with a normally returning downstream. -/
theorem dispatch_unmatched_pass_through_witness :
    passThrough
      (PrometheusMiddleware.dispatch "fastapi-app" missRequest
        (Outcome.ok sampleResponse) 0 1 "0af7651916cd43dd8448eb211c80319c")
      (Outcome.ok sampleResponse) ∧
    passThrough
      (OtelMiddleware.dispatch "fastapi-app" missRequest (Outcome.ok sampleResponse) 0 1)
      (Outcome.ok sampleResponse) ∧
    passThrough
      (otlpPipelineDispatch "fastapi-app" missRequest (Outcome.ok sampleResponse) 0 1)
      (Outcome.ok sampleResponse) :=
  dispatch_unmatched_pass_through "fastapi-app" missRequest (Outcome.ok sampleResponse)
    0 1 "0af7651916cd43dd8448eb211c80319c" (by decide)

/-- Claim C6: for every matched request, the instrumented pipeline starts
exactly one SERVER-kind span named "{method} {routeIdentifier}" with
attributes {method, route, service name}, parented to the context
extracted from the request headers (fresh when absent), before the
downstream call, and ends it exactly once after the downstream call, on
both the normal-return and the exception path. -/
theorem pipeline_span_scoped (app_name : String) (request : Request)
    (downstream : Outcome) (before after : Rat)
    (h : (OtelMiddleware.get_path request).2 = true) :
    spanScoped (otlpPipelineDispatch app_name request downstream before after).1
      (request.method ++ " " ++ (OtelMiddleware.get_path request).1)
      ⟨request.method, (OtelMiddleware.get_path request).1, app_name⟩
      (extractContext request.headers) := by
  cases downstream <;>
    simp [otlpPipelineDispatch, OtelMiddleware.dispatch, h, spanScoped,
          isSpanStartWith, isSpanStartEvent, isSpanEndEvent, isCallDownstream,
          List.countP_cons, List.countP_nil, List.findIdx_cons]

/-- Witness for the C6 theorem at a concrete matched request carrying a
traceparent header. -/
theorem pipeline_span_scoped_witness :
    spanScoped (otlpPipelineDispatch "fastapi-app" sampleRequest
        (Outcome.ok sampleResponse) 0 1).1
      (sampleRequest.method ++ " " ++ (OtelMiddleware.get_path sampleRequest).1)
      ⟨sampleRequest.method, (OtelMiddleware.get_path sampleRequest).1, "fastapi-app"⟩
      (extractContext sampleRequest.headers) :=
  pipeline_span_scoped "fastapi-app" sampleRequest (Outcome.ok sampleResponse) 0 1
    (by decide)

/-- Claim C7: within a single matched request, every metric emission of
both dispatch variants — request counter, response counter, exception
counter and both in-flight updates — carries exactly the attribute set
{method, route identifier, app name} fixed at the start of dispatch. -/
theorem dispatch_attrs_consistent (app_name : String) (request : Request)
    (downstream : Outcome) (before after : Rat) (trace_id : String)
    (h : (PrometheusMiddleware.get_path request).2 = true) :
    attrsConsistent
      (PrometheusMiddleware.dispatch app_name request downstream before after trace_id).1
      ⟨request.method, (PrometheusMiddleware.get_path request).1, app_name⟩ = true ∧
    attrsConsistent
      (OtelMiddleware.dispatch app_name request downstream before after).1
      ⟨request.method, (PrometheusMiddleware.get_path request).1, app_name⟩ = true := by
  cases downstream <;>
    simp [PrometheusMiddleware.dispatch, OtelMiddleware.dispatch, get_path_agree, h,
          attrsConsistent, attrsOf, List.all_cons]

/-- Witness for the C7 theorem at a concrete matched request that fails
downstream. -/
theorem dispatch_attrs_consistent_witness :
    attrsConsistent
      (PrometheusMiddleware.dispatch "fastapi-app" sampleRequest
        (Outcome.exn "ValueError" "boom") 0 1 "0af7651916cd43dd8448eb211c80319c").1
      ⟨sampleRequest.method, (PrometheusMiddleware.get_path sampleRequest).1, "fastapi-app"⟩ = true ∧
    attrsConsistent
      (OtelMiddleware.dispatch "fastapi-app" sampleRequest
        (Outcome.exn "ValueError" "boom") 0 1).1
      ⟨sampleRequest.method, (PrometheusMiddleware.get_path sampleRequest).1, "fastapi-app"⟩ = true :=
  dispatch_attrs_consistent "fastapi-app" sampleRequest (Outcome.exn "ValueError" "boom")
    0 1 "0af7651916cd43dd8448eb211c80319c" (by decide)

/-- Claim C8: the five metric instruments are created with exactly the
fixed names fastapi_requests_total, fastapi_responses_total,
fastapi_requests_duration_seconds, fastapi_exceptions_total and
fastapi_requests_in_progress — by OtelMiddleware construction on the
otel side (with the duration histogram carrying the seconds unit "s"),
and at module load on the prometheus_client side — and no dispatch call
of either variant ever creates an instrument. -/
theorem instruments_created_once_with_fixed_names :
    (∀ app_name : String,
      (OtelMiddleware.init app_name).map creationName =
        [some "fastapi_requests_total", some "fastapi_responses_total",
         some "fastapi_requests_duration_seconds", some "fastapi_exceptions_total",
         some "fastapi_requests_in_progress"]) ∧
    (∀ app_name : String,
      (OtelMiddleware.init app_name).countP
        (fun e =>
          match e with
          | TraceEvent.createHistogram n u _ =>
              decide (n = "fastapi_requests_duration_seconds") && decide (u = "s")
          | _ => false) = 1) ∧
    promModuleInstruments.map PromInstrument.name =
      ["fastapi_app_info", "fastapi_requests_total", "fastapi_responses_total",
       "fastapi_requests_duration_seconds", "fastapi_exceptions_total",
       "fastapi_requests_in_progress"] ∧
    (∀ (app_name : String) (request : Request) (downstream : Outcome)
        (before after : Rat) (trace_id : String),
      (PrometheusMiddleware.dispatch app_name request downstream before after trace_id).1.countP
        isCreationEvent = 0) ∧
    (∀ (app_name : String) (request : Request) (downstream : Outcome)
        (before after : Rat),
      (OtelMiddleware.dispatch app_name request downstream before after).1.countP
        isCreationEvent = 0) := by
  refine ⟨fun app_name => rfl, fun app_name => rfl, by decide, ?_, ?_⟩
  · intro app_name request downstream before after trace_id
    rcases hb : (PrometheusMiddleware.get_path request).2 with _ | _ <;>
      cases downstream <;>
        simp [PrometheusMiddleware.dispatch, hb, isCreationEvent,
              List.countP_cons, List.countP_nil]
  · intro app_name request downstream before after
    rcases hb : (OtelMiddleware.get_path request).2 with _ | _ <;>
      cases downstream <;>
        simp [OtelMiddleware.dispatch, hb, isCreationEvent,
              List.countP_cons, List.countP_nil]

/-- Claim C10: constructing a PrometheusMiddleware increments the
fastapi_app_info gauge — a sixth module-level instrument, not among the
five fixed metric names — exactly once, labelled with the app name, and
no dispatch call of either variant ever touches that gauge. -/
theorem info_gauge_incremented_only_at_construction :
    (∀ app_name : String,
      (PrometheusMiddleware.init app_name).countP (fun e => isIncInfoWith app_name e) = 1 ∧
      (PrometheusMiddleware.init app_name).countP isIncInfoEvent = 1) ∧
    INFO.name = "fastapi_app_info" ∧
    INFO.labelnames = ["app_name"] ∧
    INFO ∈ promModuleInstruments ∧
    INFO.name ∉ [REQUESTS.name, RESPONSES.name, REQUESTS_PROCESSING_TIME.name,
                 EXCEPTIONS.name, REQUESTS_IN_PROGRESS.name] ∧
    (∀ (app_name : String) (request : Request) (downstream : Outcome)
        (before after : Rat) (trace_id : String),
      (PrometheusMiddleware.dispatch app_name request downstream before after trace_id).1.countP
        isIncInfoEvent = 0) ∧
    (∀ (app_name : String) (request : Request) (downstream : Outcome)
        (before after : Rat),
      (OtelMiddleware.dispatch app_name request downstream before after).1.countP
        isIncInfoEvent = 0) := by
  refine ⟨?_, by decide, by decide, by decide, by decide, ?_, ?_⟩
  · intro app_name
    constructor <;>
      simp [PrometheusMiddleware.init, isIncInfoWith, isIncInfoEvent,
            List.countP_cons, List.countP_nil]
  · intro app_name request downstream before after trace_id
    rcases hb : (PrometheusMiddleware.get_path request).2 with _ | _ <;>
      cases downstream <;>
        simp [PrometheusMiddleware.dispatch, hb, isIncInfoEvent,
              List.countP_cons, List.countP_nil]
  · intro app_name request downstream before after
    rcases hb : (OtelMiddleware.get_path request).2 with _ | _ <;>
      cases downstream <;>
        simp [OtelMiddleware.dispatch, hb, isIncInfoEvent,
              List.countP_cons, List.countP_nil]
